import Mathlib

/-!
Shallow embedding of the Azure Function app in `src/function_app.py`
(repository blobCreatedService) and verification of its specification.

The app exposes one HTTP-triggered function, `BlobCreatedHandler`, which
parses a JSON array of Event Grid events from the request body, answers
the subscription-validation handshake, and for each
"Microsoft.Storage.BlobCreated" event derives a blob name from the
event's URL, optionally enriches a missing version id through a blob
metadata lookup, and emits a structured log entry.

Modelling decisions, each noted at the relevant definition:
- Python strings are Lean `String`s; an optional JSON field is
  `Option String` (or `Option Int` for content length).  Python
  truthiness of a string field (`if url:`, `if not version_id:`) is
  `pyTruthyStr`: `none` and `some ""` are falsy.
- The metadata lookup (`DefaultAzureCredential` + `BlobClient.from_blob_url`
  + `get_blob_properties`) is an oracle parameter
  `lookup : String → Except Unit (Option String)`: `.error ()` models the
  call raising any exception, `.ok v` models success with
  `props.version_id = v` (which the service may itself report as `None`).
- `logging.info(json.dumps(log_entry))`, `logging.warning`, and
  `logging.exception` are modelled by an explicit `Trace` accumulating
  the emitted log entries, the warning count, the exception-log count,
  and the list of URLs on which the metadata lookup was attempted.
- `json.loads(req.get_body() or "[]")` together with the surrounding
  `try`/`except` is modelled by giving the top-level handler an
  `Except Unit (List Event)` input: `.error ()` stands for an exception
  raised while parsing or iterating the body (e.g. a body that is not
  valid JSON), `.ok events` for a successfully parsed event array.
-/

/-- Status of a single character as a hexadecimal digit, as used by
percent-decoding (`urllib.parse.unquote` accepts both cases). -/
def hexDigit? (c : Char) : Option Nat :=
  if '0' ≤ c ∧ c ≤ '9' then some (c.toNat - '0'.toNat)
  else if 'a' ≤ c ∧ c ≤ 'f' then some (c.toNat - 'a'.toNat + 10)
  else if 'A' ≤ c ∧ c ≤ 'F' then some (c.toNat - 'A'.toNat + 10)
  else none

/-- Percent-decoding on character lists, following `urllib.parse.unquote`:
a percent sign followed by two hex digits decodes to the byte they denote;
an invalid or truncated escape is left literally in place.  Decoded bytes
are mapped to the code point of the same value, which agrees with
Python's UTF-8 decoding for all bytes below 0x80 (every input appearing
in this development is ASCII). -/
def unquoteChars : List Char → List Char
  | [] => []
  | '%' :: c1 :: c2 :: rest =>
    match hexDigit? c1, hexDigit? c2 with
    | some hi, some lo => Char.ofNat (16 * hi + lo) :: unquoteChars rest
    | _, _ => '%' :: unquoteChars (c1 :: c2 :: rest)
  | c :: rest => c :: unquoteChars rest

/-- Percent-decoding on strings (`urllib.parse.unquote`). -/
def unquote (s : String) : String := ⟨unquoteChars s.data⟩

/-- Python `str.lstrip("/")`: remove every leading slash, not only the
first one. -/
def lstripSlashes (s : String) : String :=
  ⟨s.data.dropWhile (fun c => c == '/')⟩

/-- Whether a character may appear in a URL scheme (`urllib.parse`
accepts letters, digits, plus, minus and periods). -/
def isSchemeChar (c : Char) : Bool :=
  c.isAlphanum || c == '+' || c == '-' || c == '.'

/-- Helper for scheme splitting: consume scheme characters up to a colon
and return what follows it, or `none` when no well-formed scheme prefix
ends in a colon. -/
def schemeRest? : List Char → Option (List Char)
  | [] => none
  | ':' :: rest => some rest
  | c :: rest => if isSchemeChar c then schemeRest? rest else none

/-- Remove a leading `scheme:` prefix as `urllib.parse.urlparse` does: a
scheme is recognised only when the string starts with a letter followed
by scheme characters and a colon. -/
def stripScheme (cs : List Char) : List Char :=
  match cs with
  | [] => []
  | c :: _ =>
    if c.isAlpha then
      match schemeRest? cs with
      | some rest => rest
      | none => cs
    else cs

/-- After scheme removal, skip a `//netloc` authority component: the path
starts at the first slash after the authority (and keeps that slash), or
is empty when the authority fills the rest of the string.  Without a
leading double slash the whole remainder is the path. -/
def pathAfterNetloc (cs : List Char) : List Char :=
  match cs with
  | '/' :: '/' :: rest => rest.dropWhile (fun c => c != '/')
  | _ => cs

/-- The `path` attribute of `urllib.parse.urlparse(url)`: drop the
fragment (from the first hash sign) and the query (from the first
question mark), strip a scheme prefix, and skip the `//netloc`
authority. -/
def urlparsePath (url : String) : String :=
  ⟨pathAfterNetloc (stripScheme
      ((url.data.takeWhile (fun c => c != '#')).takeWhile (fun c => c != '?')))⟩

/-- Embedding of the source function of the same name (function_app.py,
lines 10-13): take the URL's path component, `lstrip` every leading
slash, then percent-decode. -/
def _parse_blob_name_from_url (url : String) : String :=
  unquote (lstripSlashes (urlparsePath url))

/-- The spec's description of the stripping step, for comparison with
the code: remove exactly one leading separator, never more. -/
def stripOneLeadingSlash (s : String) : String :=
  match s.data with
  | '/' :: rest => ⟨rest⟩
  | _ => s

/-- Whether a string begins with two separators; the case on which the
code's stripping and the spec's described stripping disagree. -/
def startsTwoSlashes (s : String) : Bool :=
  match s.data with
  | '/' :: '/' :: _ => true
  | _ => false

/-- Python truthiness of an optional string field: a missing field and
the empty string are both falsy. -/
def pyTruthyStr : Option String → Bool
  | none => false
  | some s => s != ""

/-- The `data` payload of an inbound event.  `validationCode` is only
meaningful on validation events and `url`, `contentLength`, `versionId`
only on blob-created events, but the code reads all of them with `.get`,
so one record with all fields optional models the flat JSON dict. -/
structure EventData where
  url : Option String
  contentLength : Option Int
  versionId : Option String
  validationCode : Option String
deriving Repr, DecidableEq

/-- The empty dict that `event.get("data", ... )` falls back to. -/
def emptyData : EventData := ⟨none, none, none, none⟩

/-- One inbound Event Grid event, with the three fields the handler
reads.  A missing `data` member models `event.get("data")` being absent. -/
structure Event where
  eventType : Option String
  data : Option EventData
  eventTime : Option String
deriving Repr, DecidableEq

/-- The structured log entry built at lines 55-60 of the source; each
field mirrors the corresponding dict entry, with `none` for Python
`None`. -/
structure LogEntry where
  blob_name : Option String
  blob_size : Option Int
  version_id : Option String
  event_time : Option String
deriving Repr, DecidableEq

/-- An HTTP response as the handler constructs it: status code, optional
body text, optional mimetype. -/
structure HttpResponse where
  status_code : Nat
  body : Option String
  mimetype : Option String
deriving Repr, DecidableEq

/-- The bare `func.HttpResponse(status_code=200)` returned after the
loop: empty body, no explicit mimetype. -/
def ok200 : HttpResponse := ⟨200, none, none⟩

/-- JSON string escaping as `json.dumps` performs it on the validation
code (quote and backslash; control and non-ASCII characters do not occur
in the codes considered here). -/
def jsonEscape (s : String) : String :=
  s.data.foldr
    (fun c acc =>
      (if c == '"' then "\\\"" else if c == '\\' then "\\\\" else String.singleton c) ++ acc)
    ""

/-- Body produced by `json.dumps` on the one-key validation-response
dict, with the default separators. -/
def validationResponseBody (code : String) : String :=
  "\x7b\"validationResponse\": \"" ++ jsonEscape code ++ "\"\x7d"

/-- The handshake response built at lines 28-32 of the source. -/
def validationHttpResponse (code : String) : HttpResponse :=
  ⟨200, some (validationResponseBody code), some "application/json"⟩

/-- The plain-text error response of the top-level exception handler
(line 67 of the source). -/
def error500 : HttpResponse := ⟨500, some "Error", none⟩

/-- Observable side effects of one invocation: structured log entries in
emission order, number of `logging.warning` calls, number of
`logging.exception` calls, and the URLs on which a metadata lookup was
attempted, in order. -/
structure Trace where
  logs : List LogEntry
  warnings : Nat
  exceptionLogs : Nat
  calls : List String
deriving Repr, DecidableEq

/-- The empty trace. -/
def emptyTrace : Trace := ⟨[], 0, 0, []⟩

/-- Processing of one blob-created event's data (lines 35-61 of the
source): derive the blob name when the URL is truthy, read size, time
and version id, and when the version id is falsy and the URL truthy
attempt exactly one metadata lookup, downgrading any exception to a
warning and an absent version id.  Returns the log entry together with
the warning count and the lookup URLs contributed by this event. -/
def processBlobCreated (lookup : String → Except Unit (Option String))
    (ev : Event) : LogEntry × Nat × List String :=
  let data := ev.data.getD emptyData
  let url := data.url
  let blob_name : Option String :=
    if pyTruthyStr url then some (_parse_blob_name_from_url (url.getD "")) else none
  let blob_size := data.contentLength
  let event_time := ev.eventTime
  let version_id := data.versionId
  if !(pyTruthyStr version_id) && pyTruthyStr url then
    match lookup (url.getD "") with
    | .ok v => (⟨blob_name, blob_size, v, event_time⟩, 0, [url.getD ""])
    | .error _ => (⟨blob_name, blob_size, none, event_time⟩, 1, [url.getD ""])
  else
    (⟨blob_name, blob_size, version_id, event_time⟩, 0, [])

/-- The event loop of the handler (lines 20-63 of the source): route on
`eventType`; a validation event with a truthy code returns the handshake
response at once, a validation event with a falsy code is skipped via
`continue`, a blob-created event contributes one log entry and possibly
one lookup, and every other event type is ignored.  When the loop
finishes, the response is the bare 200. -/
def processEvents (lookup : String → Except Unit (Option String)) :
    List Event → HttpResponse × Trace
  | [] => (ok200, emptyTrace)
  | ev :: rest =>
    if ev.eventType == some "Microsoft.EventGrid.SubscriptionValidationEvent" then
      if pyTruthyStr (ev.data.getD emptyData).validationCode then
        (validationHttpResponse (((ev.data.getD emptyData).validationCode).getD ""),
         emptyTrace)
      else
        processEvents lookup rest
    else if ev.eventType == some "Microsoft.Storage.BlobCreated" then
      let step := processBlobCreated lookup ev
      let r := processEvents lookup rest
      (r.1, ⟨step.1 :: r.2.logs, step.2.1 + r.2.warnings, r.2.exceptionLogs,
             step.2.2 ++ r.2.calls⟩)
    else
      processEvents lookup rest

/-- The whole HTTP-triggered function (lines 16-67 of the source).  The
`Except` input models the outcome of `json.loads(req.get_body() or "[]")`
and of iterating the result: `.ok events` is a successfully parsed event
array, `.error ()` an exception raised while parsing or processing the
body, which the top-level `except` turns into `logging.exception` plus
the plain 500 response. -/
def BlobCreatedHandler (lookup : String → Except Unit (Option String))
    (parsedBody : Except Unit (List Event)) : HttpResponse × Trace :=
  match parsedBody with
  | .ok events => processEvents lookup events
  | .error _ => (error500, ⟨[], 0, 1, []⟩)

/-- Whether an event is a validation event whose code is truthy, i.e.
exactly the condition under which the loop returns early. -/
def isTriggeringValidation (ev : Event) : Bool :=
  ev.eventType == some "Microsoft.EventGrid.SubscriptionValidationEvent" &&
    pyTruthyStr (ev.data.getD emptyData).validationCode

/-- Whether an event takes the blob-created branch of the loop.  The two
event-type strings differ, so a blob-created event never matches the
validation check before it. -/
def isBlobCreatedEvent (ev : Event) : Bool :=
  ev.eventType == some "Microsoft.Storage.BlobCreated"

/-- The validation code of the first validation event with a truthy
code, if any: the code whose handshake response the loop returns. -/
def firstValidationCode : List Event → Option String
  | [] => none
  | ev :: rest =>
    if isTriggeringValidation ev then (ev.data.getD emptyData).validationCode
    else firstValidationCode rest

/-- A metadata lookup that always raises, for exercising the failure
path. -/
def failLookup : String → Except Unit (Option String) := fun _ => .error ()

/-- A metadata lookup that always succeeds with a fixed version id. -/
def okLookup : String → Except Unit (Option String) := fun _ => .ok (some "2024-01-01T00:00:00.0000000Z")

/-- The worked example URL of the specification. -/
def exampleUrl : String := "https://acct.blob.core.windows.net/container/a%20b.txt"

/-- A URL whose path component begins with two separators. -/
def doubleSlashUrl : String := "https://acct.blob.core.windows.net//container/x"

/-- A well-formed blob-created event carrying a version id. -/
def blobEventWithVersion : Event :=
  ⟨some "Microsoft.Storage.BlobCreated",
   some ⟨some "https://acct.blob.core.windows.net/container/one.txt", some 11,
         some "2024-05-01T10:00:00.0000000Z", none⟩,
   some "2024-05-01T10:00:01Z"⟩

/-- A well-formed blob-created event with no version id. -/
def blobEventNoVersion : Event :=
  ⟨some "Microsoft.Storage.BlobCreated",
   some ⟨some "https://acct.blob.core.windows.net/container/two.txt", some 22,
         none, none⟩,
   some "2024-05-01T11:00:00Z"⟩

/-- A blob-created event whose version id is present but equal to the
empty string. -/
def blobEventEmptyVersion : Event :=
  ⟨some "Microsoft.Storage.BlobCreated",
   some ⟨some "https://acct.blob.core.windows.net/container/three.txt", some 33,
         some "", none⟩,
   some "2024-05-01T12:00:00Z"⟩

/-- A blob-created event with no url field at all. -/
def blobEventNoUrl : Event :=
  ⟨some "Microsoft.Storage.BlobCreated",
   some ⟨none, some 44, some "2024-05-01T13:00:00.0000000Z", none⟩,
   some "2024-05-01T13:00:00Z"⟩

/-- A blob-created event whose url field is present but empty. -/
def blobEventEmptyUrl : Event :=
  ⟨some "Microsoft.Storage.BlobCreated",
   some ⟨some "", some 55, none, none⟩,
   some "2024-05-01T14:00:00Z"⟩

/-- A blob-created event whose url is present but not a well-formed
URL. -/
def blobEventMalformedUrl : Event :=
  ⟨some "Microsoft.Storage.BlobCreated",
   some ⟨some "notaurl", some 66, none, none⟩,
   some "2024-05-01T15:00:00Z"⟩

/-- A validation event carrying the spec's example code. -/
def validationEventAbc : Event :=
  ⟨some "Microsoft.EventGrid.SubscriptionValidationEvent",
   some ⟨none, none, none, some "abc123"⟩, none⟩

/-- A validation event with no validation code. -/
def validationEventNoCode : Event :=
  ⟨some "Microsoft.EventGrid.SubscriptionValidationEvent",
   some ⟨none, none, none, none⟩, none⟩

/-- A validation event whose validation code is the empty string. -/
def validationEventEmptyCode : Event :=
  ⟨some "Microsoft.EventGrid.SubscriptionValidationEvent",
   some ⟨none, none, none, some ""⟩, none⟩

/-- An event of a type the handler does not know. -/
def unknownEvent : Event :=
  ⟨some "Microsoft.Storage.BlobDeleted",
   some ⟨some "https://acct.blob.core.windows.net/container/gone.txt", some 7, none, none⟩,
   some "2024-05-01T16:00:00Z"⟩

/-! ## Helper lemmas about the event loop -/

/-- When the string does not begin with two slashes, stripping all
leading slashes and stripping exactly one agree. -/
theorem lstripSlashes_eq_stripOne (s : String) (h : startsTwoSlashes s = false) :
    lstripSlashes s = stripOneLeadingSlash s := by
  rcases s with ⟨cs⟩
  cases cs with
  | nil => rfl
  | cons c rest =>
    by_cases hc : c = '/'
    · subst hc
      cases rest with
      | nil => rfl
      | cons c2 rest2 =>
        by_cases hc2 : c2 = '/'
        · subst hc2
          simp [startsTwoSlashes] at h
        · have h2 : (c2 == '/') = false := beq_eq_false_iff_ne.mpr hc2
          simp [lstripSlashes, stripOneLeadingSlash, List.dropWhile, h2]
    · have h1 : (c == '/') = false := beq_eq_false_iff_ne.mpr hc
      simp only [lstripSlashes, List.dropWhile, h1]
      rw [stripOneLeadingSlash]
      split
      · next rest2 heq =>
        injection heq with hch _
        exact absurd hch hc
      · rfl

/-- Loop step: a validation event with a truthy code returns the
handshake response immediately. -/
theorem processEvents_cons_trigger (lookup : String → Except Unit (Option String))
    (ev : Event) (rest : List Event) (h : isTriggeringValidation ev = true) :
    processEvents lookup (ev :: rest) =
      (validationHttpResponse (((ev.data.getD emptyData).validationCode).getD ""),
       emptyTrace) := by
  rw [isTriggeringValidation, Bool.and_eq_true] at h
  simp [processEvents, h.1, h.2]

/-- Loop step: an event that is neither a triggering validation event
nor a blob-created event leaves the computation unchanged. -/
theorem processEvents_cons_skip (lookup : String → Except Unit (Option String))
    (ev : Event) (rest : List Event) (h : isTriggeringValidation ev = false)
    (hb : isBlobCreatedEvent ev = false) :
    processEvents lookup (ev :: rest) = processEvents lookup rest := by
  rw [isTriggeringValidation, Bool.and_eq_false_iff] at h
  rw [isBlobCreatedEvent] at hb
  rcases h with h | h
  · simp [processEvents, h, hb]
  · by_cases hv : (ev.eventType == some "Microsoft.EventGrid.SubscriptionValidationEvent") = true
    · simp [processEvents, hv, h]
    · simp [processEvents, hv, hb]

/-- Loop step: a blob-created event contributes one log entry, its
warnings and its lookup calls, and processing continues. -/
theorem processEvents_cons_blob (lookup : String → Except Unit (Option String))
    (ev : Event) (rest : List Event) (hb : isBlobCreatedEvent ev = true) :
    processEvents lookup (ev :: rest) =
      ((processEvents lookup rest).1,
       ⟨(processBlobCreated lookup ev).1 :: (processEvents lookup rest).2.logs,
        (processBlobCreated lookup ev).2.1 + (processEvents lookup rest).2.warnings,
        (processEvents lookup rest).2.exceptionLogs,
        (processBlobCreated lookup ev).2.2 ++ (processEvents lookup rest).2.calls⟩) := by
  rw [isBlobCreatedEvent, beq_iff_eq] at hb
  have hv : (ev.eventType == some "Microsoft.EventGrid.SubscriptionValidationEvent") = false := by
    rw [hb]; decide
  simp [processEvents, hv, hb]

/-- The response of the loop is the handshake response of the first
validation event with a truthy code when one exists, and the bare 200
otherwise. -/
theorem processEvents_fst (lookup : String → Except Unit (Option String))
    (evs : List Event) :
    (processEvents lookup evs).1 =
      (match firstValidationCode evs with
       | some c => validationHttpResponse c
       | none => ok200) := by
  induction evs with
  | nil => rfl
  | cons ev rest ih =>
    by_cases ht : isTriggeringValidation ev = true
    · have hcode : pyTruthyStr (ev.data.getD emptyData).validationCode = true := by
        rw [isTriggeringValidation, Bool.and_eq_true] at ht
        exact ht.2
      cases hc : (ev.data.getD emptyData).validationCode with
      | none => rw [hc] at hcode; simp [pyTruthyStr] at hcode
      | some c =>
        rw [processEvents_cons_trigger lookup ev rest ht]
        simp [firstValidationCode, ht, hc]
    · rw [Bool.not_eq_true] at ht
      by_cases hb : isBlobCreatedEvent ev = true
      · rw [processEvents_cons_blob lookup ev rest hb]
        simp [firstValidationCode, ht, ih]
      · rw [Bool.not_eq_true] at hb
        rw [processEvents_cons_skip lookup ev rest ht hb]
        simp [firstValidationCode, ht, ih]

/-- The status code of the loop's response is always 200: the 500
response can only come from the top-level exception handler. -/
theorem processEvents_status (lookup : String → Except Unit (Option String))
    (evs : List Event) : (processEvents lookup evs).1.status_code = 200 := by
  rw [processEvents_fst]
  cases firstValidationCode evs <;> rfl

/-- When no validation event returns early from the head of the list,
the head is not a triggering validation event and the tail also has
none. -/
theorem firstValidationCode_cons_none (ev : Event) (rest : List Event)
    (h : firstValidationCode (ev :: rest) = none) :
    isTriggeringValidation ev = false ∧ firstValidationCode rest = none := by
  by_cases ht : isTriggeringValidation ev = true
  · exfalso
    simp only [firstValidationCode, ht, if_true] at h
    have hcode : pyTruthyStr (ev.data.getD emptyData).validationCode = true := by
      rw [isTriggeringValidation, Bool.and_eq_true] at ht
      exact ht.2
    rw [h] at hcode
    simp [pyTruthyStr] at hcode
  · rw [Bool.not_eq_true] at ht
    simp only [firstValidationCode, ht, if_false] at h
    exact ⟨ht, h⟩

/-- When no validation event with a truthy code occurs, the handler
returns the bare 200 and logs exactly one entry per blob-created event,
in input order, each derived from its own event. -/
theorem processEvents_of_noVal (lookup : String → Except Unit (Option String))
    (evs : List Event) (h : firstValidationCode evs = none) :
    (processEvents lookup evs).1 = ok200 ∧
    (processEvents lookup evs).2.logs =
      (evs.filter isBlobCreatedEvent).map (fun e => (processBlobCreated lookup e).1) := by
  refine ⟨by rw [processEvents_fst, h], ?_⟩
  induction evs with
  | nil => rfl
  | cons ev rest ih =>
    obtain ⟨ht, hrest⟩ := firstValidationCode_cons_none ev rest h
    by_cases hb : isBlobCreatedEvent ev = true
    · rw [processEvents_cons_blob lookup ev rest hb]
      simp only [List.filter_cons, hb, if_true, List.map_cons]
      exact congrArg _ (ih hrest)
    · rw [Bool.not_eq_true] at hb
      rw [processEvents_cons_skip lookup ev rest ht hb]
      simp only [List.filter_cons, hb, if_false]
      exact ih hrest

/-- A triggering validation event somewhere in the list guarantees a
first truthy validation code, and that code is not empty. -/
theorem firstValidationCode_of_trigger (evs : List Event) (i : Nat)
    (h : i < evs.length)
    (htrig : isTriggeringValidation (evs.get ⟨i, h⟩) = true) :
    ∃ c, firstValidationCode evs = some c ∧ c ≠ "" := by
  induction evs generalizing i with
  | nil => simp at h
  | cons ev rest ih =>
    by_cases ht : isTriggeringValidation ev = true
    · have hcode : pyTruthyStr (ev.data.getD emptyData).validationCode = true := by
        rw [isTriggeringValidation, Bool.and_eq_true] at ht
        exact ht.2
      cases hc : (ev.data.getD emptyData).validationCode with
      | none => rw [hc] at hcode; simp [pyTruthyStr] at hcode
      | some c =>
        refine ⟨c, by simp [firstValidationCode, ht, hc], ?_⟩
        rw [hc] at hcode
        simpa [pyTruthyStr] using hcode
    · cases i with
      | zero => exact absurd (by simpa using htrig) ht
      | succ i =>
        rw [Bool.not_eq_true] at ht
        have h' : i < rest.length := by simpa using h
        have htrig' : isTriggeringValidation (rest.get ⟨i, h'⟩) = true := by
          simpa using htrig
        obtain ⟨c, hc1, hc2⟩ := ih i h' htrig'
        exact ⟨c, by simp [firstValidationCode, ht, hc1], hc2⟩

/-- A triggering validation event at position i makes the whole run
indistinguishable from the run on the batch truncated just after
position i: nothing past the early return is processed. -/
theorem processEvents_take (lookup : String → Except Unit (Option String))
    (evs : List Event) (i : Nat) (h : i < evs.length)
    (htrig : isTriggeringValidation (evs.get ⟨i, h⟩) = true) :
    processEvents lookup evs = processEvents lookup (evs.take (i + 1)) := by
  induction evs generalizing i with
  | nil => simp at h
  | cons ev rest ih =>
    cases i with
    | zero =>
      have htrig0 : isTriggeringValidation ev = true := by simpa using htrig
      rw [List.take_succ_cons, List.take_zero,
          processEvents_cons_trigger lookup ev rest htrig0,
          processEvents_cons_trigger lookup ev [] htrig0]
    | succ i =>
      have h' : i < rest.length := by simpa using h
      have htrig' : isTriggeringValidation (rest.get ⟨i, h'⟩) = true := by
        simpa using htrig
      rw [List.take_succ_cons]
      by_cases ht : isTriggeringValidation ev = true
      · rw [processEvents_cons_trigger lookup ev rest ht,
            processEvents_cons_trigger lookup ev _ ht]
      · rw [Bool.not_eq_true] at ht
        by_cases hb : isBlobCreatedEvent ev = true
        · rw [processEvents_cons_blob lookup ev rest hb,
              processEvents_cons_blob lookup ev _ hb,
              ih i h' htrig']
        · rw [Bool.not_eq_true] at hb
          rw [processEvents_cons_skip lookup ev rest ht hb,
              processEvents_cons_skip lookup ev _ ht hb,
              ih i h' htrig']

/-- Blob-step case: a truthy version id in the payload skips the lookup
and is logged unchanged. -/
theorem processBlobCreated_truthy_version (lookup : String → Except Unit (Option String))
    (ev : Event) (h : pyTruthyStr (ev.data.getD emptyData).versionId = true) :
    processBlobCreated lookup ev =
      (⟨(if pyTruthyStr (ev.data.getD emptyData).url then
           some (_parse_blob_name_from_url ((ev.data.getD emptyData).url.getD "")) else none),
        (ev.data.getD emptyData).contentLength,
        (ev.data.getD emptyData).versionId,
        ev.eventTime⟩, 0, []) := by
  simp only [processBlobCreated, h, Bool.not_true, Bool.false_and, Bool.false_eq_true,
    if_false]

/-- Blob-step case: a falsy version id together with a truthy URL runs
the lookup on that URL; an exception becomes one warning and an absent
version id, success uses the fetched value. -/
theorem processBlobCreated_enrich (lookup : String → Except Unit (Option String))
    (ev : Event) (hv : pyTruthyStr (ev.data.getD emptyData).versionId = false)
    (hurl : pyTruthyStr (ev.data.getD emptyData).url = true) :
    processBlobCreated lookup ev =
      (match lookup ((ev.data.getD emptyData).url.getD "") with
       | .ok v =>
         (⟨some (_parse_blob_name_from_url ((ev.data.getD emptyData).url.getD "")),
           (ev.data.getD emptyData).contentLength, v, ev.eventTime⟩, 0,
          [(ev.data.getD emptyData).url.getD ""])
       | .error _ =>
         (⟨some (_parse_blob_name_from_url ((ev.data.getD emptyData).url.getD "")),
           (ev.data.getD emptyData).contentLength, none, ev.eventTime⟩, 1,
          [(ev.data.getD emptyData).url.getD ""])) := by
  simp only [processBlobCreated, hv, hurl, Bool.not_false, Bool.true_and, if_true]

/-- Blob-step case: a falsy URL skips both the name derivation and the
lookup, with no warning. -/
theorem processBlobCreated_no_url (lookup : String → Except Unit (Option String))
    (ev : Event) (hurl : pyTruthyStr (ev.data.getD emptyData).url = false) :
    processBlobCreated lookup ev =
      (⟨none, (ev.data.getD emptyData).contentLength,
        (ev.data.getD emptyData).versionId, ev.eventTime⟩, 0, []) := by
  simp only [processBlobCreated, hurl, Bool.and_false, Bool.false_eq_true, if_false]

/-! ## Claim C1 -/

/-- Claim C1, counterexample: on a URL whose path component begins with
two separators, the code strips them all, so the derived blob name is
not the percent-decoded path with exactly one leading separator
stripped. -/
theorem C1_counterexample :
    urlparsePath doubleSlashUrl = "//container/x" ∧
    unquote (stripOneLeadingSlash (urlparsePath doubleSlashUrl)) = "/container/x" ∧
    _parse_blob_name_from_url doubleSlashUrl = "container/x" ∧
    _parse_blob_name_from_url doubleSlashUrl ≠
      unquote (stripOneLeadingSlash (urlparsePath doubleSlashUrl)) := by
  refine ⟨by decide, by decide, by decide, by decide⟩

/-- Claim C1 (amended): for every URL with path component p, the derived
blob name equals the percent-decoded form of p with ALL leading
separators stripped; when p does not begin with two or more separators
this coincides with stripping exactly one, as the claim describes. -/
theorem C1_strip_amended (u : String) :
    _parse_blob_name_from_url u = unquote (lstripSlashes (urlparsePath u)) ∧
    (startsTwoSlashes (urlparsePath u) = false →
      _parse_blob_name_from_url u = unquote (stripOneLeadingSlash (urlparsePath u))) := by
  refine ⟨rfl, fun h => ?_⟩
  rw [_parse_blob_name_from_url, lstripSlashes_eq_stripOne _ h]

/-- Claim C1, witness: the spec's example URL has a single-separator
path, and the derived blob name is the example's expected value. -/
theorem C1_strip_amended_witness :
    startsTwoSlashes (urlparsePath exampleUrl) = false ∧
    _parse_blob_name_from_url exampleUrl =
      unquote (stripOneLeadingSlash (urlparsePath exampleUrl)) ∧
    _parse_blob_name_from_url exampleUrl = "container/a b.txt" := by
  refine ⟨by decide, (C1_strip_amended exampleUrl).2 (by decide), by decide⟩

/-! ## Claim C2 -/

/-- Claim C2, counterexample: a blob-created event whose version_id is
present but equal to the empty string does trigger an enrichment call
when a URL is present, and after a failing lookup the logged version_id
is absent rather than the payload's empty string. -/
theorem C2_counterexample :
    (blobEventEmptyVersion.data.getD emptyData).versionId = some "" ∧
    (processEvents failLookup [blobEventEmptyVersion]).2.calls ≠ [] ∧
    (processEvents failLookup [blobEventEmptyVersion]).2.logs.map
      (fun l => l.version_id) = [none] := by
  refine ⟨rfl, by decide, by decide⟩

/-- Claim C2 (amended): for every blob-created event whose payload
carries a non-empty version_id, no enrichment call is attempted even
when a URL is present, the emitted log entry carries that version_id
unchanged, and the invocation returns 200. -/
theorem C2_version_present (lookup : String → Except Unit (Option String))
    (ev : Event) (v : String)
    (htype : ev.eventType = some "Microsoft.Storage.BlobCreated")
    (hv : (ev.data.getD emptyData).versionId = some v) (hne : v ≠ "") :
    (processEvents lookup [ev]).2.calls = [] ∧
    (processEvents lookup [ev]).2.logs.map (fun l => l.version_id) = [some v] ∧
    (processEvents lookup [ev]).1 = ok200 := by
  have hb : isBlobCreatedEvent ev = true := by
    rw [isBlobCreatedEvent, htype]; decide
  have htruthy : pyTruthyStr (ev.data.getD emptyData).versionId = true := by
    rw [hv]; simpa [pyTruthyStr] using hne
  rw [processEvents_cons_blob lookup ev [] hb,
      processBlobCreated_truthy_version lookup ev htruthy]
  simp [processEvents, hv, ok200, emptyTrace]

/-- Claim C2, witness: a concrete blob-created event with a URL and a
non-empty version id, against an always-failing lookup. -/
theorem C2_version_present_witness :
    (processEvents failLookup [blobEventWithVersion]).2.calls = [] ∧
    (processEvents failLookup [blobEventWithVersion]).2.logs.map
      (fun l => l.version_id) = [some "2024-05-01T10:00:00.0000000Z"] ∧
    (processEvents failLookup [blobEventWithVersion]).1 = ok200 :=
  C2_version_present failLookup blobEventWithVersion "2024-05-01T10:00:00.0000000Z"
    rfl rfl (by decide)

/-! ## Claim C3 -/

/-- Claim C3: for every blob-created event whose payload has no url, the
emitted log entry has blob_name absent and no enrichment call is
attempted, whatever the version id. -/
theorem C3_no_url (lookup : String → Except Unit (Option String)) (ev : Event)
    (htype : ev.eventType = some "Microsoft.Storage.BlobCreated")
    (hurl : (ev.data.getD emptyData).url = none) :
    (processEvents lookup [ev]).2.calls = [] ∧
    (processEvents lookup [ev]).2.logs.map (fun l => l.blob_name) = [none] := by
  have hb : isBlobCreatedEvent ev = true := by
    rw [isBlobCreatedEvent, htype]; decide
  have hfalsy : pyTruthyStr (ev.data.getD emptyData).url = false := by
    rw [hurl]; rfl
  rw [processEvents_cons_blob lookup ev [] hb,
      processBlobCreated_no_url lookup ev hfalsy]
  simp [processEvents, emptyTrace]

/-- Claim C3, witness: a concrete url-less blob-created event with a
version id present. -/
theorem C3_no_url_witness :
    (processEvents failLookup [blobEventNoUrl]).2.calls = [] ∧
    (processEvents failLookup [blobEventNoUrl]).2.logs.map
      (fun l => l.blob_name) = [none] :=
  C3_no_url failLookup blobEventNoUrl rfl rfl

/-! ## Claim C4 -/

/-- Claim C4, counterexample: a blob-created event with version_id
absent and a URL present but empty attempts no enrichment call at all,
because the code tests the URL for Python truthiness, not presence. -/
theorem C4_counterexample :
    (blobEventEmptyUrl.data.getD emptyData).versionId = none ∧
    (blobEventEmptyUrl.data.getD emptyData).url = some "" ∧
    (processBlobCreated failLookup blobEventEmptyUrl).2.2 = [] ∧
    (processBlobCreated failLookup blobEventEmptyUrl).2.1 = 0 := by
  refine ⟨rfl, rfl, by decide, by decide⟩

/-- Claim C4 (amended): for every blob-created event with version_id
absent and a non-empty URL present, exactly one enrichment call is
attempted, on that URL; when the call raises, one warning is logged, the
log entry is still emitted with version_id absent, and the invocation
returns status 200. -/
theorem C4_enrichment_failure (lookup : String → Except Unit (Option String))
    (ev : Event) (u : String)
    (htype : ev.eventType = some "Microsoft.Storage.BlobCreated")
    (hv : (ev.data.getD emptyData).versionId = none)
    (hurl : (ev.data.getD emptyData).url = some u) (hne : u ≠ "") :
    (processBlobCreated lookup ev).2.2 = [u] ∧
    (lookup u = .error () →
      (processBlobCreated lookup ev).2.1 = 1 ∧
      (processBlobCreated lookup ev).1.version_id = none ∧
      (processEvents lookup [ev]).2.logs = [(processBlobCreated lookup ev).1] ∧
      (processEvents lookup [ev]).1.status_code = 200) := by
  have hb : isBlobCreatedEvent ev = true := by
    rw [isBlobCreatedEvent, htype]; decide
  have hvf : pyTruthyStr (ev.data.getD emptyData).versionId = false := by
    rw [hv]; rfl
  have hut : pyTruthyStr (ev.data.getD emptyData).url = true := by
    rw [hurl]; simpa [pyTruthyStr] using hne
  have hgd : (ev.data.getD emptyData).url.getD "" = u := by rw [hurl]; rfl
  have hstep := processBlobCreated_enrich lookup ev hvf hut
  rw [hgd] at hstep
  have hlogs : (processEvents lookup [ev]).2.logs = [(processBlobCreated lookup ev).1] := by
    rw [processEvents_cons_blob lookup ev [] hb]
    simp [processEvents, emptyTrace]
  refine ⟨?_, fun hfail => ?_⟩
  · rw [hstep]
    cases lookup u <;> rfl
  · rw [hfail] at hstep
    rw [hstep]
    exact ⟨rfl, rfl, by rw [← hstep]; exact hlogs, processEvents_status lookup [ev]⟩

/-- Claim C4, witness: a concrete version-less blob-created event with a
well-formed URL, against an always-failing lookup. -/
theorem C4_enrichment_failure_witness :
    (processBlobCreated failLookup blobEventNoVersion).2.2 =
      ["https://acct.blob.core.windows.net/container/two.txt"] ∧
    (processBlobCreated failLookup blobEventNoVersion).2.1 = 1 ∧
    (processBlobCreated failLookup blobEventNoVersion).1.version_id = none ∧
    (processEvents failLookup [blobEventNoVersion]).1.status_code = 200 := by
  have h := C4_enrichment_failure failLookup blobEventNoVersion
    "https://acct.blob.core.windows.net/container/two.txt" rfl rfl rfl (by decide)
  obtain ⟨h1, h2⟩ := h
  obtain ⟨h3, h4, h5, h6⟩ := h2 rfl
  exact ⟨h1, h3, h4, h6⟩

/-! ## Claim C5 -/

/-- Claim C5, counterexample: a validation event whose validationCode is
present but equal to the empty string is skipped rather than answered,
so a batch of only that event gets the 200 empty response instead of the
JSON validation response. -/
theorem C5_counterexample :
    (validationEventEmptyCode.data.getD emptyData).validationCode = some "" ∧
    processEvents failLookup [validationEventEmptyCode] = (ok200, emptyTrace) ∧
    validationHttpResponse "" ≠ ok200 := by
  refine ⟨rfl, by decide, by decide⟩

/-- Claim C5 (amended): a batch whose first validation event with a
truthy code carries code c is answered with HTTP 200 and the JSON
validation-response body for c; a validation event whose code is missing
or empty is skipped silently, and a batch of only such an event yields
the 200 empty response. -/
theorem C5_validation_handshake (lookup : String → Except Unit (Option String))
    (evs : List Event) (c : String) (ev : Event) (rest : List Event)
    (hfirst : firstValidationCode evs = some c)
    (hv : ev.eventType = some "Microsoft.EventGrid.SubscriptionValidationEvent")
    (hcode : pyTruthyStr (ev.data.getD emptyData).validationCode = false) :
    (processEvents lookup evs).1 = validationHttpResponse c ∧
    processEvents lookup (ev :: rest) = processEvents lookup rest ∧
    processEvents lookup [ev] = (ok200, emptyTrace) := by
  have ht : isTriggeringValidation ev = false := by
    rw [isTriggeringValidation, hcode, Bool.and_false]
  have hb : isBlobCreatedEvent ev = false := by
    rw [isBlobCreatedEvent, hv]; decide
  refine ⟨by rw [processEvents_fst, hfirst], processEvents_cons_skip lookup ev rest ht hb, ?_⟩
  rw [processEvents_cons_skip lookup ev [] ht hb]
  rfl

/-- Claim C5, witness: the spec's example handshake event, and a
code-less validation event in a singleton batch. -/
theorem C5_validation_handshake_witness :
    (processEvents failLookup [validationEventAbc]).1 =
      validationHttpResponse "abc123" ∧
    processEvents failLookup [validationEventNoCode] = (ok200, emptyTrace) := by
  have h := C5_validation_handshake failLookup [validationEventAbc] "abc123"
    validationEventNoCode [] (by decide) rfl rfl
  exact ⟨h.1, h.2.2⟩

/-! ## Claim C6 -/

/-- Claim C6, counterexample: a malformed but non-empty URL is not
skipped: the blob name is still derived from it and the enrichment
attempt still happens, logging a warning when the lookup raises. -/
theorem C6_counterexample :
    (blobEventMalformedUrl.data.getD emptyData).url = some "notaurl" ∧
    (processBlobCreated failLookup blobEventMalformedUrl).1.blob_name = some "notaurl" ∧
    (processBlobCreated failLookup blobEventMalformedUrl).2.2 = ["notaurl"] ∧
    (processBlobCreated failLookup blobEventMalformedUrl).2.1 = 1 := by
  refine ⟨rfl, by decide, by decide, by decide⟩

/-- Claim C6 (amended): for every blob-created event whose URL is
missing (absent or empty), both the blob-name derivation and the
enrichment attempt are skipped, no warning is logged, and the invocation
returns 200; a malformed but non-empty URL is instead parsed as-is and
enrichment is attempted on it. -/
theorem C6_missing_url (lookup : String → Except Unit (Option String))
    (ev : Event)
    (htype : ev.eventType = some "Microsoft.Storage.BlobCreated")
    (hurl : pyTruthyStr (ev.data.getD emptyData).url = false) :
    (processBlobCreated lookup ev).1.blob_name = none ∧
    (processBlobCreated lookup ev).2.2 = [] ∧
    (processBlobCreated lookup ev).2.1 = 0 ∧
    (processEvents lookup [ev]).1.status_code = 200 := by
  rw [processBlobCreated_no_url lookup ev hurl]
  exact ⟨rfl, rfl, rfl, processEvents_status lookup [ev]⟩

/-- Claim C6, witness: a concrete blob-created event whose url field is
the empty string. -/
theorem C6_missing_url_witness :
    (processBlobCreated failLookup blobEventEmptyUrl).1.blob_name = none ∧
    (processBlobCreated failLookup blobEventEmptyUrl).2.2 = [] ∧
    (processBlobCreated failLookup blobEventEmptyUrl).2.1 = 0 ∧
    (processEvents failLookup [blobEventEmptyUrl]).1.status_code = 200 :=
  C6_missing_url failLookup blobEventEmptyUrl rfl rfl

/-! ## Claim C7 -/

/-- Claim C7: an exception raised while parsing or processing the
request body is caught at top level, logged once via the exception
logger, and answered with HTTP 500 and the plain-text body Error;
conversely, a successfully parsed batch never produces a 500. -/
theorem C7_unhandled_exception (lookup : String → Except Unit (Option String)) :
    BlobCreatedHandler lookup (Except.error ()) =
      (⟨500, some "Error", none⟩, ⟨[], 0, 1, []⟩) ∧
    ∀ evs : List Event,
      (BlobCreatedHandler lookup (Except.ok evs)).1.status_code = 200 :=
  ⟨rfl, fun evs => processEvents_status lookup evs⟩

/-! ## Claim C8 -/

/-- Claim C8, counterexample: a batch containing two blob-created events
preceded by a triggering validation event yields no log entries at all,
because the handshake returns before the blob events are reached. -/
theorem C8_counterexample :
    ([validationEventAbc, blobEventWithVersion, blobEventNoVersion].filter
        isBlobCreatedEvent).length = 2 ∧
    (processEvents failLookup
        [validationEventAbc, blobEventWithVersion, blobEventNoVersion]).2.logs = [] := by
  refine ⟨by decide, by decide⟩

/-- Claim C8 (amended): every batch containing exactly two blob-created
events and no validation event with a truthy code yields exactly two log
entries, each derived independently from its own event's fields, in
input order, and the invocation returns 200 after processing the whole
batch. -/
theorem C8_two_blob_events (lookup : String → Except Unit (Option String))
    (evs : List Event) (e1 e2 : Event)
    (hno : firstValidationCode evs = none)
    (htwo : evs.filter isBlobCreatedEvent = [e1, e2]) :
    (processEvents lookup evs).2.logs =
      [(processBlobCreated lookup e1).1, (processBlobCreated lookup e2).1] ∧
    (processEvents lookup evs).1 = ok200 := by
  obtain ⟨hresp, hlogs⟩ := processEvents_of_noVal lookup evs hno
  rw [htwo] at hlogs
  exact ⟨by simpa using hlogs, hresp⟩

/-- Claim C8, witness: two concrete blob-created events around an
unknown-type event. -/
theorem C8_two_blob_events_witness :
    (processEvents failLookup
        [blobEventWithVersion, unknownEvent, blobEventNoVersion]).2.logs =
      [(processBlobCreated failLookup blobEventWithVersion).1,
       (processBlobCreated failLookup blobEventNoVersion).1] ∧
    (processEvents failLookup
        [blobEventWithVersion, unknownEvent, blobEventNoVersion]).1 = ok200 :=
  C8_two_blob_events failLookup
    [blobEventWithVersion, unknownEvent, blobEventNoVersion]
    blobEventWithVersion blobEventNoVersion (by decide) (by decide)

/-! ## Claim C9 -/

/-- Claim C9: an event whose type is neither the validation type nor the
blob-created type contributes no log entry, no warning, no lookup and no
response: the run on the batch with it equals the run on the batch
without it. -/
theorem C9_unknown_ignored (lookup : String → Except Unit (Option String))
    (ev : Event) (rest : List Event)
    (h1 : ev.eventType ≠ some "Microsoft.EventGrid.SubscriptionValidationEvent")
    (h2 : ev.eventType ≠ some "Microsoft.Storage.BlobCreated") :
    processEvents lookup (ev :: rest) = processEvents lookup rest := by
  have ht : isTriggeringValidation ev = false := by
    rw [isTriggeringValidation, beq_eq_false_iff_ne.mpr h1, Bool.false_and]
  have hb : isBlobCreatedEvent ev = false := by
    rw [isBlobCreatedEvent]
    exact beq_eq_false_iff_ne.mpr h2
  exact processEvents_cons_skip lookup ev rest ht hb

/-- Claim C9, witness: a concrete blob-deleted event in front of a
blob-created event. -/
theorem C9_unknown_ignored_witness :
    processEvents failLookup [unknownEvent, blobEventWithVersion] =
      processEvents failLookup [blobEventWithVersion] :=
  C9_unknown_ignored failLookup unknownEvent [blobEventWithVersion]
    (by decide) (by decide)

/-! ## Claim C10 -/

/-- Claim C10: when a validation event carrying a non-empty code sits at
position i of the batch, the whole run equals the run on the batch
truncated just after position i, so no event past i is processed or
logged, and the response is the handshake response of a non-empty
code. -/
theorem C10_early_return (lookup : String → Except Unit (Option String))
    (evs : List Event) (i : Nat) (c : String) (h : i < evs.length)
    (hv : (evs.get ⟨i, h⟩).eventType =
      some "Microsoft.EventGrid.SubscriptionValidationEvent")
    (hcode : ((evs.get ⟨i, h⟩).data.getD emptyData).validationCode = some c)
    (hc : c ≠ "") :
    processEvents lookup evs = processEvents lookup (evs.take (i + 1)) ∧
    ∃ d, d ≠ "" ∧ (processEvents lookup evs).1 = validationHttpResponse d := by
  have htrig : isTriggeringValidation (evs.get ⟨i, h⟩) = true := by
    rw [isTriggeringValidation, hv, hcode]
    simp [pyTruthyStr, hc]
  refine ⟨processEvents_take lookup evs i h htrig, ?_⟩
  obtain ⟨d, hd1, hd2⟩ := firstValidationCode_of_trigger evs i h htrig
  exact ⟨d, hd2, by rw [processEvents_fst, hd1]⟩

/-- Claim C10, witness: a triggering validation event at position 1 of a
three-event batch. -/
theorem C10_early_return_witness :
    processEvents failLookup
        [blobEventWithVersion, validationEventAbc, blobEventNoVersion] =
      processEvents failLookup
        ([blobEventWithVersion, validationEventAbc, blobEventNoVersion].take 2) ∧
    ∃ d, d ≠ "" ∧
      (processEvents failLookup
          [blobEventWithVersion, validationEventAbc, blobEventNoVersion]).1 =
        validationHttpResponse d :=
  C10_early_return failLookup
    [blobEventWithVersion, validationEventAbc, blobEventNoVersion]
    1 "abc123" (by decide) rfl rfl (by decide)
